import Mathlib

/-!
Shallow embedding of the ETL-PROCESS repository's ingestion pipeline
(consumer/main.py, consumer/database.py, consumer/etl_processor.py,
validation.py, kafka_consumer_etl_fixed.py), together with theorems
settling the specification claims about it.

Python conventions modelled explicitly:
* dynamically typed dict values become the inductive type `Value`
  (JSON null / str / float / bool plus `datetime` objects);
  `float` is modelled exactly by `Rat` (no NaN/inf arise in the claims);
* `dict.get(k)` returns `None` when the key is absent, so `pyGet`
  returns `Value.vNone` in that case;
* Python truthiness (`if x:`) is `pyTruthy`: None, `''`, `0`, `False`
  are falsy;
* functions such as `float(...)` or `datetime.fromisoformat(...)` that
  parse strings are kept abstract: they appear as explicit function
  parameters (`String → Option _`), universally quantified in every
  theorem, so nothing about their behaviour is assumed.
-/

/-- Model of a Python `datetime` object: an abstract token distinguished
only up to equality (the pipeline never inspects its components). -/
structure PyDatetime where
  tick : Nat
deriving DecidableEq, Repr

/-- A dynamically-typed Python/JSON value as it occurs in the sensor
payload dicts. -/
inductive Value where
  | vNone : Value
  | vStr (s : String) : Value
  | vNum (q : Rat) : Value
  | vBool (b : Bool) : Value
  | vDt (d : PyDatetime) : Value
deriving DecidableEq, Repr

/-- A Python dict with string keys, as association list.  Lookups take
the first matching key, so prepending a pair models `d[k] = v`. -/
abbrev Record := List (String × Value)

/-- `data.get(key)`: `Value.vNone` when the key is absent (Python `None`). -/
def pyGet (r : Record) (k : String) : Value :=
  match r.find? (fun kv => kv.1 = k) with
  | some kv => kv.2
  | none => Value.vNone

/-- `d[k] = v` for the lookup model above: prepend the new binding. -/
def pySet (r : Record) (k : String) (v : Value) : Record :=
  (k, v) :: r

/-- Python truthiness of a `Value` (`if x:`). -/
def pyTruthy : Value → Bool
  | Value.vNone => false
  | Value.vStr s => s ≠ ""
  | Value.vNum q => q ≠ 0
  | Value.vBool b => b
  | Value.vDt _ => true

/-- `str(x)` for the value shapes the pipeline feeds to parsers. -/
def pyStr : Value → String
  | Value.vNone => "None"
  | Value.vStr s => s
  | Value.vNum q => toString q
  | Value.vBool b => if b then "True" else "False"
  | Value.vDt d => "datetime-" ++ toString d.tick

/-- `float(x)`; `strFloat` is Python's string-to-float parser (abstract:
`none` models a raised `ValueError`).  `float` of a datetime raises
`TypeError`, hence `none`. -/
def pyFloat (strFloat : String → Option Rat) : Value → Option Rat
  | Value.vNone => none
  | Value.vStr s => strFloat s
  | Value.vNum q => some q
  | Value.vBool b => some (if b then 1 else 0)
  | Value.vDt _ => none

namespace Consumer

/-! ### consumer/database.py — Redis cache write (history list)

`save_to_redis` (lines 277-286) maintains the per-device history list
with `LPUSH history_key entry` followed by `LTRIM history_key 0 9999`.
Redis lists are modelled as Lean lists, head = index 0. -/

/-- Redis `LPUSH`: prepend the new element (it becomes index 0). -/
def lpush (l : List String) (x : String) : List String :=
  x :: l

/-- Redis `LTRIM key start stop` (non-negative indices): keep the
elements whose index lies in `[start, stop]`, clamped to the list. -/
def ltrim (l : List String) (start stop : Nat) : List String :=
  (l.drop start).take (stop + 1 - start)

/-- The history-list portion of `DatabaseManager.save_to_redis`
(database.py lines 284-286): push the serialized entry, then trim the
list to indices 0..9999 (10,000 entries). -/
def save_to_redis_history (l : List String) (entry : String) : List String :=
  ltrim (lpush l entry) 0 9999

/-! ### consumer/etl_processor.py — permissive air transform -/

/-- Python truthiness of an optional float field (`if d.get('x'):`). -/
def truthyQ : Option Rat → Bool
  | none => false
  | some q => q ≠ 0

/-- One field of `ETLProcessor._validate_air_data`:
`if validated.get(f):` (truthiness — skipped when the value is `None`
or `0`), then `if v < lo or v > hi: validated[f] = None`. -/
def nullifyOutside (v : Option Rat) (lo hi : Rat) : Option Rat :=
  match v with
  | none => none
  | some c => if c = 0 then some c else if c < lo ∨ c > hi then none else some c

/-- The air-record fields read and written by the consumer's permissive
path (etl_processor.py / database.py). -/
structure AirRec where
  device_name : Option String := none
  co2 : Option Rat := none
  temperature : Option Rat := none
  humidity : Option Rat := none
  pressure : Option Rat := none
  battery : Option Rat := none
deriving DecidableEq, Repr

/-- `ETLProcessor._validate_air_data` (etl_processor.py lines 127-152):
each of the four measurement fields is independently nulled when truthy
and out of its range — co2 300..5000, temperature -10..50,
humidity 0..100, pressure 500..1100; all other fields are untouched. -/
def _validate_air_data (d : AirRec) : AirRec :=
  { d with
    co2 := nullifyOutside d.co2 300 5000
    temperature := nullifyOutside d.temperature (-10) 50
    humidity := nullifyOutside d.humidity 0 100
    pressure := nullifyOutside d.pressure 500 1100 }

/-- `ETLProcessor._calculate_dew_point` (etl_processor.py lines 154-167),
Magnus approximation over exact reals: guard `humidity <= 0` returns
`None`; otherwise `alpha = a*T/(b+T) + log(humidity/100)` and the result
is `round(b*alpha/(a - alpha), 2)`.  (The Python `try/except` also
catches a division by zero at `T = -b` or `alpha = a`; over `ℝ` those
denominators only vanish outside every input this development touches.) -/
noncomputable def _calculate_dew_point (temperature humidity : Rat) : Option ℝ :=
  if humidity ≤ 0 then none
  else
    let a : ℝ := 17.27
    let b : ℝ := 237.7
    let alpha : ℝ := a * (temperature : ℝ) / (b + (temperature : ℝ)) +
      Real.log ((humidity : ℝ) / 100)
    some (((round ((b * alpha / (a - alpha)) * 100) : ℤ) : ℝ) / 100)

/-! ### consumer/database.py — alert rules and durable write -/

/-- The fields `DatabaseManager._check_alerts` reads from the processed
record (all floats at that point in the pipeline). -/
structure AlertInput where
  device_name : String
  co2 : Option Rat := none
  temperature : Option Rat := none
  laeq : Option Rat := none
  water_level : Option Rat := none
  battery : Option Rat := none
deriving DecidableEq, Repr

/-- One alert row as built by `_check_alerts` (the human-readable
`message` string and the measurement-id foreign keys are elided: no
claim mentions them). -/
structure AlertSpec where
  alert_type : String
  value : Rat
  threshold : Rat
  severity : String
deriving DecidableEq, Repr

/-- `DatabaseManager._check_alerts` (database.py lines 317-447): the
list of alerts created for one accepted measurement, in creation order.
Every guard is a Python truthiness test `if x and x < t:` / `if x:`, so
a field equal to `0` never fires its rule. -/
def _check_alerts (sensor_type : String) (d : AlertInput) : List AlertSpec :=
  let sensorAlerts : List AlertSpec :=
    if sensor_type = "aire" then
      (match d.co2 with
       | some c =>
         if c ≠ 0 ∧ c > 1000 then
           [⟨"high_co2", c, 1000, if c > 2000 then "high" else "medium"⟩]
         else []
       | none => []) ++
      (match d.temperature with
       | some t =>
         if t ≠ 0 then
           if t > 30 then [⟨"high_temperature", t, 30, "medium"⟩]
           else if t < 10 then [⟨"low_temperature", t, 10, "medium"⟩]
           else []
         else []
       | none => [])
    else if sensor_type = "sonido" then
      match d.laeq with
      | some l =>
        if l ≠ 0 ∧ l > 75 then
          [⟨"high_noise", l, 75, if l > 85 then "high" else "medium"⟩]
        else []
      | none => []
    else if sensor_type = "agua" then
      match d.water_level with
      | some w =>
        if w ≠ 0 ∧ w < 20 then
          [⟨"low_water_level", w, 20, if w < 10 then "high" else "medium"⟩]
        else []
      | none => []
    else []
  let batteryAlerts : List AlertSpec :=
    match d.battery with
    | some b => if b ≠ 0 ∧ b < 20 then [⟨"low_battery", b, 20, "medium"⟩] else []
    | none => []
  sensorAlerts ++ batteryAlerts

/-- `DatabaseManager.save_to_postgres` (database.py lines 98-203) at the
granularity the acknowledgment claims need: the whole body sits in a
`try/except Exception` whose handler rolls the transaction back and
`return None` — no exception ever escapes.  `dbFail` models any failure
raised by the store (outage, constraint violation, ...).  On success the
new measurement id is returned; an unknown sensor type leaves
`measurement = None`, rolls back and returns `None`. -/
def save_to_postgres (dbFail : Bool) (sensor_type : Value) (_data : Record) : Option Nat :=
  if dbFail then none
  else if sensor_type = Value.vStr "aire" ∨ sensor_type = Value.vStr "sonido"
      ∨ sensor_type = Value.vStr "agua" then some 1
  else none

/-! ### consumer/main.py — message intake and acknowledgment -/

/-- The timestamp fix-up inlined in `Consumer.process_message`
(main.py lines 148-159): a truthy string timestamp is parsed with
`datetime.fromisoformat` after replacing `Z` by `+00:00`, any parse
exception falls back to `datetime.utcnow()`; a truthy non-string value
is left unchanged; a falsy (missing/empty) value becomes
`datetime.utcnow()`.  `fromiso` is the abstract parser, `now` the
receipt time. -/
def timestamp_fixup (fromiso : String → Option PyDatetime) (now : PyDatetime)
    (ts : Value) : Value :=
  if pyTruthy ts then
    match ts with
    | Value.vStr s =>
      match fromiso (s.replace "Z" "+00:00") with
      | some d => Value.vDt d
      | none => Value.vDt now
    | v => v
  else Value.vDt now

/-- How decoding the delivered body can go: `json.loads(body.decode())`
raises `json.JSONDecodeError` on malformed JSON; any other exception
(e.g. a `UnicodeDecodeError` from `body.decode()`) is only caught by
the generic handler. -/
inductive PyExc where
  | jsonDecodeError : PyExc
  | otherExc : PyExc
deriving DecidableEq, Repr

/-- The decoded wire envelope (`message.get(...)` fields). -/
structure EnvMsg where
  message_id : Value := Value.vNone
  sensor_type : Value := Value.vNone
  data : Record := []
  produced_at : Value := Value.vNone

/-- The acknowledgment sent for one delivery. -/
inductive AckDecision where
  | ack : AckDecision
  | nackRequeue : AckDecision
  | nackNoRequeue : AckDecision
deriving DecidableEq, Repr

/-- `Consumer.process_message` (main.py lines 111-202), as a function of
the decode outcome and of the ETL step.  `etl` stands for the
`ETLProcessor.process_*` dispatch plus `add_time_features`
(lines 132-146); `.error ()` models an exception escaping that code,
which only the generic `except Exception` handler catches.
`save_to_postgres` and `save_to_redis` both swallow their exceptions
internally and return `None`/`False`, so their outcomes (`dbFail`,
`redisOk`) cannot change the control flow after them, and the handler
chain is: `json.JSONDecodeError → basic_nack(requeue=False)`, any other
exception `→ basic_nack(requeue=True)`, fall-through `→ basic_ack`. -/
def process_message (fromiso : String → Option PyDatetime) (now : PyDatetime)
    (etl : Value → Record → Except Unit Record)
    (dbFail : Bool) (redisOk : Bool)
    (decode : Except PyExc EnvMsg) : AckDecision :=
  match decode with
  | Except.error PyExc.jsonDecodeError => AckDecision.nackNoRequeue
  | Except.error PyExc.otherExc => AckDecision.nackRequeue
  | Except.ok msg =>
    if ¬ (msg.sensor_type = Value.vStr "aire" ∨ msg.sensor_type = Value.vStr "sonido"
        ∨ msg.sensor_type = Value.vStr "agua") then
      AckDecision.ack
    else
      match etl msg.sensor_type msg.data with
      | Except.error _ => AckDecision.nackRequeue
      | Except.ok processed =>
        let processed :=
          pySet processed "timestamp"
            (timestamp_fixup fromiso now (pyGet processed "timestamp"))
        if ¬ pyTruthy (pyGet processed "device_name") then AckDecision.ack
        else
          let _postgres_id := save_to_postgres dbFail msg.sensor_type processed
          let _redis_ok := redisOk
          AckDecision.ack

end Consumer

namespace Validation

/-! ### validation.py — `DataValidator` -/

/-- The mutable counters of `DataValidator.__init__` (validation.py
lines 9-16); the rejection-reason histogram is an association list. -/
structure VStats where
  total_processed : Nat := 0
  valid_records : Nat := 0
  empty_records : Nat := 0
  invalid_records : Nat := 0
  rejection_reasons : List (String × Nat) := []
deriving DecidableEq, Repr

/-- The freshly-initialized statistics dict. -/
def initStats : VStats := {}

/-- `self.stats['rejection_reasons'][reason] = ....get(reason, 0) + 1`
(inside `_log_rejection`, lines 145-152; the log output is I/O and is
not modelled). -/
def bumpReason (rs : List (String × Nat)) (reason : String) : List (String × Nat) :=
  if rs.any (fun kv => kv.1 = reason) then
    rs.map (fun kv => if kv.1 = reason then (kv.1, kv.2 + 1) else kv)
  else rs ++ [(reason, 1)]

/-- The per-value filter shared by `is_completely_empty` and the
measurement-presence rule: `value is not None and value != '' and not
pd.isna(value)`.  (`pd.isna` is `True` only for `None`/float NaN; NaN is
not representable in this exact-rational model, so the `isna` test adds
nothing beyond the `None` check.) -/
def isNonEmptyVal (v : Value) : Bool :=
  v ≠ Value.vNone ∧ v ≠ Value.vStr ""

/-- `DataValidator.is_completely_empty` (lines 18-29): an absent/empty
dict is empty; otherwise count the non-empty values and compare to 0. -/
def is_completely_empty (r : Record) : Bool :=
  if r.isEmpty then true
  else r.countP (fun kv => isNonEmptyVal kv.2) = 0

/-- `DataValidator._get_measurement_fields` (lines 75-89). -/
def _get_measurement_fields (sensor_type : String) : List String :=
  if sensor_type = "air_quality" then
    ["object.co2", "object.temperature", "object.humidity", "object.pressure",
     "object.co2_status", "object.temperature_status", "object.humidity_status"]
  else if sensor_type = "sound" then
    ["object.LAeq", "object.LAI", "object.LAImax", "object.status"]
  else if sensor_type = "water" then
    ["object.distance", "object.position", "object.status", "batteryLevel"]
  else []

/-- The `ranges` table of `_is_reasonable_value` (lines 130-137). -/
def ranges : List (String × (Rat × Rat)) :=
  [("object.co2", (300, 5000)),
   ("object.temperature", (-50, 60)),
   ("object.humidity", (0, 100)),
   ("object.pressure", (500, 1100)),
   ("sound_level", (30, 120)),
   ("distance", (0, 100))]

/-- `DataValidator._is_reasonable_value` (lines 122-143): `None`/`''`
fail, a failed `float(...)` conversion fails, otherwise the value must
lie in the field's range; an unknown field type defaults to
`(-inf, inf)`, i.e. always passes. -/
def _is_reasonable_value (strFloat : String → Option Rat)
    (v : Value) (field_type : String) : Bool :=
  if v = Value.vNone ∨ v = Value.vStr "" then false
  else
    match pyFloat strFloat v with
    | none => false
    | some x =>
      match ranges.find? (fun kv => kv.1 = field_type) with
      | some kv => kv.2.1 ≤ x ∧ x ≤ kv.2.2
      | none => true

/-- `DataValidator._validate_sensor_specific` (lines 91-120).  The
enclosing `try/except` returns `True` on an exception; no operation in
this model raises, so that branch is unreachable here. -/
def _validate_sensor_specific (strFloat : String → Option Rat)
    (r : Record) (sensor_type : String) : Bool :=
  if sensor_type = "air_quality" then
    ["object.co2", "object.temperature", "object.humidity", "object.pressure"].any
      (fun f => _is_reasonable_value strFloat (pyGet r f) f)
  else if sensor_type = "sound" then
    if pyGet r "object.LAeq" ≠ Value.vNone then
      _is_reasonable_value strFloat (pyGet r "object.LAeq") "sound_level"
    else true
  else if sensor_type = "water" then
    (pyGet r "object.distance" ≠ Value.vNone &&
      _is_reasonable_value strFloat (pyGet r "object.distance") "distance") ||
    pyGet r "object.position" ≠ Value.vNone
  else true

/-- `DataValidator.validate_sensor_record` (lines 31-73), state-passing:
takes the current stats, returns the updated stats plus the
`(accepted, reason)` pair.  Rules in source order, short-circuiting:
emptiness, required identity fields (`_id`, `time`, by truthiness),
measurement presence, sensor-specific range check.  (Python formats the
missing-field reason with the list repr; this model intercalates the
names — no claim depends on that formatting.) -/
def validate_sensor_record (strFloat : String → Option Rat) (s : VStats)
    (record : Record) (sensor_type : String) : VStats × Bool × String :=
  let s := { s with total_processed := s.total_processed + 1 }
  if is_completely_empty record then
    ({ s with
        empty_records := s.empty_records + 1
        rejection_reasons := bumpReason s.rejection_reasons "REGISTRO_COMPLETAMENTE_VACIO" },
     false, "Registro completamente vacío")
  else
    let missing_required := ["_id", "time"].filter (fun f => ¬ pyTruthy (pyGet record f))
    if missing_required ≠ [] then
      ({ s with
          invalid_records := s.invalid_records + 1
          rejection_reasons := bumpReason s.rejection_reasons "CAMPOS_REQUERIDOS_FALTANTES" },
       false, "Campos requeridos faltantes: " ++ String.intercalate ", " missing_required)
    else
      let has_measurement := (_get_measurement_fields sensor_type).any
        (fun f => isNonEmptyVal (pyGet record f))
      if ¬ has_measurement then
        ({ s with
            invalid_records := s.invalid_records + 1
            rejection_reasons := bumpReason s.rejection_reasons "SIN_DATOS_MEDICION" },
         false, "Sin datos de medición para " ++ sensor_type)
      else if ¬ _validate_sensor_specific strFloat record sensor_type then
        ({ s with
            invalid_records := s.invalid_records + 1
            rejection_reasons := bumpReason s.rejection_reasons "VALIDACION_ESPECIFICA_FALLIDA" },
         false, "Validación específica fallida para " ++ sensor_type)
      else
        ({ s with valid_records := s.valid_records + 1 }, true, "Válido")

/-- The fields of `DataValidator.get_validation_report` (lines 154-165);
rates are exact rationals. -/
structure ValidationReport where
  total_processed : Nat
  valid_records : Nat
  empty_records : Nat
  invalid_records : Nat
  validity_rate : Rat
  empty_rate : Rat
  rejection_reasons : List (String × Nat)
deriving DecidableEq, Repr

/-- `DataValidator.get_validation_report` (lines 154-165). -/
def get_validation_report (s : VStats) : ValidationReport :=
  { total_processed := s.total_processed
    valid_records := s.valid_records
    empty_records := s.empty_records
    invalid_records := s.invalid_records
    validity_rate :=
      if s.total_processed > 0 then (s.valid_records : Rat) / (s.total_processed : Rat) else 0
    empty_rate :=
      if s.total_processed > 0 then (s.empty_records : Rat) / (s.total_processed : Rat) else 0
    rejection_reasons := s.rejection_reasons }

end Validation

namespace KafkaETL

/-! ### kafka_consumer_etl_fixed.py — `SensorDataETL` (strict pipeline) -/

/-- `ETLConfig` signal bounds (config.py lines 40-43). -/
def MIN_RSSI : Rat := -130

/-- `ETLConfig.MAX_RSSI`. -/
def MAX_RSSI : Rat := 0

/-- `ETLConfig.MIN_SNR`. -/
def MIN_SNR : Rat := -20

/-- `ETLConfig.MAX_SNR`. -/
def MAX_SNR : Rat := 20

/-- The dict returned by `extract_signal_metrics`. -/
structure SignalMetrics where
  rssi_avg : Option Rat
  snr_avg : Option Rat
  rssi_min : Option Rat
  rssi_max : Option Rat
  gateway_count : Nat
deriving DecidableEq, Repr

/-- `np.mean` over the collected readings (exact arithmetic). -/
def listMean (l : List Rat) : Rat :=
  l.sum / (l.length : Rat)

/-- Python `min(...)` over a nonempty list, `None` otherwise. -/
def listMin : List Rat → Option Rat
  | [] => none
  | x :: xs => some (xs.foldl min x)

/-- Python `max(...)` over a nonempty list, `None` otherwise. -/
def listMax : List Rat → Option Rat
  | [] => none
  | x :: xs => some (xs.foldl max x)

/-- The per-gateway collection loop of `extract_signal_metrics`
(kafka_consumer_etl_fixed.py lines 103-124): for `i` in 0..3 read
`rxInfo[i].<field>`, skip `None`/`''`, convert with `float(...)`
(a raised `ValueError`/`TypeError` skips the reading), keep the value
only if it lies within `[lo, hi]`. -/
def gatherReadings (strFloat : String → Option Rat) (data : Record)
    (field : String) (lo hi : Rat) : List Rat :=
  (List.range 4).filterMap (fun i =>
    let v := pyGet data ("rxInfo[" ++ toString i ++ "]." ++ field)
    if v ≠ Value.vNone ∧ v ≠ Value.vStr "" then
      match pyFloat strFloat v with
      | some x => if lo ≤ x ∧ x ≤ hi then some x else none
      | none => none
    else none)

/-- `SensorDataETL.extract_signal_metrics` (lines 98-132): aggregate the
in-bounds RSSI and SNR readings; an empty collection yields `None`
aggregates (`np.mean(xs) if xs else None`), and `gateway_count` is the
number of accepted RSSI readings. -/
def extract_signal_metrics (strFloat : String → Option Rat)
    (data : Record) : SignalMetrics :=
  let rssi_values := gatherReadings strFloat data "rssi" MIN_RSSI MAX_RSSI
  let snr_values := gatherReadings strFloat data "snr" MIN_SNR MAX_SNR
  { rssi_avg := if rssi_values.isEmpty then none else some (listMean rssi_values)
    snr_avg := if snr_values.isEmpty then none else some (listMean snr_values)
    rssi_min := listMin rssi_values
    rssi_max := listMax rssi_values
    gateway_count := rssi_values.length }

/-- `SensorDataETL.safe_timestamp` (lines 303-337).  `fromiso` models
`datetime.fromisoformat` and `strptime fmt s` models
`datetime.strptime(s, fmt)`; both return `none` where Python raises
(the outer `try/except` maps every such exception to `None`).  A falsy
input (`None`, `''`, `0`) returns `None`; an actual `datetime` instance
is returned as-is; a string containing `Z` goes through `fromisoformat`
after `Z → +00:00`, one containing `T` goes through `fromisoformat`
directly, anything else is tried against the two space-delimited
`strptime` formats in order. -/
def safe_timestamp (fromiso : String → Option PyDatetime)
    (strptime : String → String → Option PyDatetime) (v : Value) : Option PyDatetime :=
  if ¬ pyTruthy v then none
  else
    match v with
    | Value.vDt d => some d
    | w =>
      let s := (pyStr w).trim
      if s.contains 'Z' then fromiso (s.replace "Z" "+00:00")
      else if s.contains 'T' then fromiso s
      else
        match strptime "%Y-%m-%d %H:%M:%S" s with
        | some d => some d
        | none =>
          match strptime "%Y-%m-%d %H:%M:%S.%f" s with
          | some d => some d
          | none => none

/-- The rejection-relevant head of `SensorDataETL.transform_to_schema`
(lines 177-297): the critical-field truthiness check (`_id`, `time`,
`deviceInfo.deviceName` — step 1, lines 189-194) and the timestamp check
(step 2, lines 208-211), each returning `None` on failure.  Signal
metrics and location extraction run in between but are total and cannot
reject, so together with everything after the timestamp check (base
data, null-percentage gate, per-sensor transforms) they are abstracted
into the continuation `rest`. -/
def transform_to_schema_head {R : Type} (fromiso : String → Option PyDatetime)
    (strptime : String → String → Option PyDatetime)
    (data : Record) (rest : PyDatetime → Option R) : Option R :=
  let critical_missing :=
    ["_id", "time", "deviceInfo.deviceName"].filter (fun f => ¬ pyTruthy (pyGet data f))
  if critical_missing ≠ [] then none
  else
    match safe_timestamp fromiso strptime (pyGet data "time") with
    | none => none
    | some d => rest d

/-- The `sensor_specific` dict handed to `validate_air_quality_data`
(`safe_float` outputs; the four `*_status` strings are never read by
the validator and are elided). -/
structure AirSpecific where
  co2 : Option Rat := none
  temperature : Option Rat := none
  humidity : Option Rat := none
  pressure : Option Rat := none
deriving DecidableEq, Repr

/-- `value is not None and not (lo <= value <= hi)` — the per-field
rejection test of the strict validators. -/
def outOfRange (v : Option Rat) (lo hi : Rat) : Bool :=
  match v with
  | some x => ¬ (lo ≤ x ∧ x ≤ hi)
  | none => false

/-- `SensorDataETL.validate_air_quality_data` (lines 350-372): require
at least one non-`None` measurement, then reject the whole record when
a present `co2` is outside 300..5000 or a present `temperature` is
outside -50..60 (note: this strict validator checks only these two
ranges; it uses `is not None`, not truthiness). -/
def validate_air_quality_data (d : AirSpecific) : Bool :=
  if ¬ (d.co2.isSome || d.temperature.isSome || d.humidity.isSome || d.pressure.isSome) then
    false
  else if outOfRange d.co2 300 5000 then false
  else if outOfRange d.temperature (-50) 60 then false
  else true

end KafkaETL

/-! ## Theorems -/

theorem consumer_history_step (l : List String) (x : String) :
    Consumer.save_to_redis_history l x = x :: l.take 9999 := by
  simp [Consumer.save_to_redis_history, Consumer.ltrim, Consumer.lpush]

/-- Claim C4: after any number of inserts through the cache write path
(`save_to_redis`'s LPUSH-then-LTRIM sequence), the per-device history
list never holds more than 10,000 entries, and its head (index 0) is
always the most recently inserted entry — whatever the list contained
before. -/
theorem c4_history_bounded_newest_first (init : List String)
    (inserts : List String) (x : String) :
    ((inserts ++ [x]).foldl Consumer.save_to_redis_history init).length ≤ 10000 ∧
    ((inserts ++ [x]).foldl Consumer.save_to_redis_history init).head? = some x := by
  rw [List.foldl_append]
  rw [show (Consumer.save_to_redis_history) = (fun l x => x :: l.take 9999) from
    funext fun l => funext fun x => consumer_history_step l x]
  refine ⟨?_, rfl⟩
  simp only [List.foldl_cons, List.foldl_nil, List.length_cons, List.length_take]
  omega

/-- Claim C2 (counterexample): a water record whose `water_level` is
exactly `0` — which is in `[0, 100]` and below the threshold 20 —
produces no `low_water_level` alert at all, because the guard
`if water_level and water_level < 20:` treats `0` as falsy. -/
theorem c2_counterexample_level_zero :
    (Consumer._check_alerts "agua"
        { device_name := "w1", water_level := some 0 }).filter
      (fun a => a.alert_type = "low_water_level") = [] ∧
    (0 : Rat) < 20 := by
  constructor
  · rfl
  · norm_num

/-- Claim C2 (amended): for every accepted water measurement with
`water_level` present and strictly positive, the alert check creates
exactly one `low_water_level` alert with threshold 20 when
`water_level < 20` (severity `high` if `water_level < 10`, else
`medium`), and none when `water_level ≥ 20`; a `water_level` of exactly
`0` creates no alert (Python truthiness guard). -/
theorem c2_low_water_alert (d : Consumer.AlertInput) (w : Rat)
    (hw : d.water_level = some w) (hpos : 0 < w) :
    (Consumer._check_alerts "agua" d).filter
        (fun a => a.alert_type = "low_water_level") =
      if w < 20 then
        [⟨"low_water_level", w, 20, if w < 10 then "high" else "medium"⟩]
      else [] := by
  have hne : w ≠ 0 := ne_of_gt hpos
  unfold Consumer._check_alerts
  rw [hw]
  rw [if_neg (by decide : ¬ ("agua" = "aire")),
    if_neg (by decide : ¬ ("agua" = "sonido")),
    if_pos (rfl : "agua" = "agua")]
  rw [List.filter_append]
  have hbat : ∀ bo : Option Rat,
      (match bo with
      | some b =>
        if b ≠ 0 ∧ b < 20 then
          [(⟨"low_battery", b, 20, "medium"⟩ : Consumer.AlertSpec)]
        else []
      | none => ([] : List Consumer.AlertSpec)).filter
        (fun a : Consumer.AlertSpec => a.alert_type = "low_water_level") = [] := by
    intro bo
    cases bo with
    | none => rfl
    | some b =>
      by_cases h : b ≠ 0 ∧ b < 20 <;> simp [h]
  rw [hbat d.battery, List.append_nil]
  show List.filter (fun a : Consumer.AlertSpec => a.alert_type = "low_water_level")
      (if w ≠ 0 ∧ w < 20 then
        [(⟨"low_water_level", w, 20, if w < 10 then "high" else "medium"⟩ :
          Consumer.AlertSpec)]
      else []) =
    if w < 20 then
      [(⟨"low_water_level", w, 20, if w < 10 then "high" else "medium"⟩ :
        Consumer.AlertSpec)]
    else []
  by_cases h20 : w < 20
  · rw [if_pos (And.intro hne h20), if_pos h20]
    simp
  · rw [if_neg (fun hc => h20 hc.2), if_neg h20]
    rfl

/-- Claim C2 (witness): the amended theorem at `water_level = 5`: one
`low_water_level` alert of severity `high`. -/
theorem c2_low_water_alert_witness :
    (Consumer._check_alerts "agua"
        { device_name := "w1", water_level := some 5 }).filter
      (fun a => a.alert_type = "low_water_level") =
      [⟨"low_water_level", 5, 20, "high"⟩] := by
  have h := c2_low_water_alert
    { device_name := "w1", water_level := some 5 } 5 rfl (by norm_num)
  rw [h]
  norm_num

/-- Claim C3 (counterexample): a record whose CO₂ is present and equal
to `0` — outside `[300, 5000]` — is NOT nulled by the permissive
transform: `if validated.get('co2'):` treats `0` as falsy and skips the
range check, so `co2` stays `0`. -/
theorem c3_counterexample_co2_zero :
    (Consumer._validate_air_data { co2 := some 0 }).co2 = some 0 ∧
    ¬ ((300 : Rat) ≤ 0 ∧ (0 : Rat) ≤ 5000) := by
  refine ⟨rfl, ?_⟩
  norm_num

/-- Claim C3 (amended): for every record with a present NONZERO CO₂
value outside `[300, 5000]`, the permissive transform
(`_validate_air_data`) nulls `co2` while leaving the non-measurement
fields unchanged (each other measurement field is governed only by its
own independent range check); the strict `validate_air_quality_data`
rejects every record with a present CO₂ outside `[300, 5000]`,
including CO₂ = 0, since it tests `is not None` rather than
truthiness. -/
theorem c3_co2_out_of_range :
    (∀ (r : Consumer.AirRec) (c : Rat), r.co2 = some c → c ≠ 0 →
      (c < 300 ∨ c > 5000) →
      (Consumer._validate_air_data r).co2 = none ∧
      (Consumer._validate_air_data r).device_name = r.device_name ∧
      (Consumer._validate_air_data r).battery = r.battery) ∧
    (∀ (d : KafkaETL.AirSpecific) (c : Rat), d.co2 = some c →
      (c < 300 ∨ c > 5000) →
      KafkaETL.validate_air_quality_data d = false) := by
  constructor
  · intro r c hc hne hout
    refine ⟨?_, rfl, rfl⟩
    simp only [Consumer._validate_air_data, Consumer.nullifyOutside, hc]
    rw [if_neg hne, if_pos hout]
  · intro d c hc hout
    have h1 : ¬ ((300 : Rat) ≤ c ∧ c ≤ 5000) := by
      rcases hout with h | h
      · exact fun hc2 => absurd hc2.1 (not_le.mpr h)
      · exact fun hc2 => absurd hc2.2 (not_le.mpr h)
    simp [KafkaETL.validate_air_quality_data, KafkaETL.outOfRange, hc, h1]

/-- Claim C3 (witness): the amended theorem at CO₂ = 6000: the
permissive transform nulls it and the strict validator rejects. -/
theorem c3_co2_out_of_range_witness :
    (Consumer._validate_air_data { co2 := some 6000 }).co2 = none ∧
    KafkaETL.validate_air_quality_data { co2 := some 6000 } = false :=
  ⟨(c3_co2_out_of_range.1 { co2 := some 6000 } 6000 rfl (by norm_num)
      (by norm_num)).1,
   c3_co2_out_of_range.2 { co2 := some 6000 } 6000 rfl (by norm_num)⟩

/-- Claim C6 (counterexample): a present temperature of 55 °C lies
inside the claimed domain range [-50, 60], yet the permissive transform
nulls it — its actual range check is `-10..50`
(etl_processor.py lines 137-140), not the strict validator's
`-50..60`. -/
theorem c6_counterexample_temp_55 :
    (Consumer._validate_air_data { temperature := some 55 }).temperature = none ∧
    (-50 : Rat) ≤ 55 ∧ (55 : Rat) ≤ 60 := by
  refine ⟨rfl, by norm_num, by norm_num⟩

/-- Claim C6 (amended): in the permissive path a present temperature is
nulled iff it is nonzero and outside `-10..50`; in particular every
present temperature in `[-10, 50]` is preserved, but the range differs
from the strict validator's declared `-50..60` (which, whatever the
string-to-float parser does, accepts 55 and -20 — both nulled or kept
differently by the permissive path). -/
theorem c6_permissive_temperature_range :
    (∀ (r : Consumer.AirRec) (t : Rat), r.temperature = some t →
      (Consumer._validate_air_data r).temperature =
        if t ≠ 0 ∧ (t < -10 ∨ t > 50) then none else some t) ∧
    (∀ strFloat : String → Option Rat,
      Validation._is_reasonable_value strFloat (Value.vNum 55)
        "object.temperature" = true ∧
      Validation._is_reasonable_value strFloat (Value.vNum (-20))
        "object.temperature" = true) := by
  constructor
  · intro r t ht
    simp only [Consumer._validate_air_data, Consumer.nullifyOutside, ht]
    by_cases h0 : t = 0
    · rw [if_pos h0, if_neg (fun hc => hc.1 h0)]
    · rw [if_neg h0]
      by_cases hr : t < -10 ∨ t > 50
      · rw [if_pos hr, if_pos (And.intro h0 hr)]
      · rw [if_neg hr, if_neg (fun hc => hr hc.2)]
  · intro strFloat
    exact ⟨rfl, rfl⟩

/-- Claim C6 (witness): the amended theorem at temperature 55: the
permissive transform nulls it while the strict validator's range test
accepts it. -/
theorem c6_permissive_temperature_range_witness :
    (Consumer._validate_air_data { temperature := some 55 }).temperature =
      (if (55 : Rat) ≠ 0 ∧ ((55 : Rat) < -10 ∨ (55 : Rat) > 50) then none
       else some (55 : Rat)) ∧
    Validation._is_reasonable_value (fun _ => none) (Value.vNum 55)
      "object.temperature" = true :=
  ⟨c6_permissive_temperature_range.1 { temperature := some 55 } 55 rfl,
   (c6_permissive_temperature_range.2 (fun _ => none)).1⟩

/-- Claim C8: signal aggregation accepts an RSSI reading only inside
`[-130, 0]`; on readings `[-140, -90, -60, -200]` the average is the
mean of the two in-bounds readings (`-75`) with `gateway_count = 2`,
and whenever no reading at all is in bounds, all four aggregates are
`None`, not zero. -/
theorem c8_signal_aggregation :
    (∀ strFloat : String → Option Rat,
      (KafkaETL.extract_signal_metrics strFloat
        [("rxInfo[0].rssi", Value.vNum (-140)),
         ("rxInfo[1].rssi", Value.vNum (-90)),
         ("rxInfo[2].rssi", Value.vNum (-60)),
         ("rxInfo[3].rssi", Value.vNum (-200))]).rssi_avg = some (-75) ∧
      (KafkaETL.extract_signal_metrics strFloat
        [("rxInfo[0].rssi", Value.vNum (-140)),
         ("rxInfo[1].rssi", Value.vNum (-90)),
         ("rxInfo[2].rssi", Value.vNum (-60)),
         ("rxInfo[3].rssi", Value.vNum (-200))]).gateway_count = 2) ∧
    (∀ (strFloat : String → Option Rat) (data : Record),
      KafkaETL.gatherReadings strFloat data "rssi"
        KafkaETL.MIN_RSSI KafkaETL.MAX_RSSI = [] →
      KafkaETL.gatherReadings strFloat data "snr"
        KafkaETL.MIN_SNR KafkaETL.MAX_SNR = [] →
      (KafkaETL.extract_signal_metrics strFloat data).rssi_avg = none ∧
      (KafkaETL.extract_signal_metrics strFloat data).snr_avg = none ∧
      (KafkaETL.extract_signal_metrics strFloat data).rssi_min = none ∧
      (KafkaETL.extract_signal_metrics strFloat data).rssi_max = none) := by
  constructor
  · intro strFloat
    have hg : KafkaETL.gatherReadings strFloat
        [("rxInfo[0].rssi", Value.vNum (-140)),
         ("rxInfo[1].rssi", Value.vNum (-90)),
         ("rxInfo[2].rssi", Value.vNum (-60)),
         ("rxInfo[3].rssi", Value.vNum (-200))] "rssi"
        KafkaETL.MIN_RSSI KafkaETL.MAX_RSSI = [-90, -60] := rfl
    constructor
    · simp only [KafkaETL.extract_signal_metrics, hg]
      norm_num [KafkaETL.listMean]
    · simp only [KafkaETL.extract_signal_metrics, hg]
      rfl
  · intro strFloat data hr hs
    simp only [KafkaETL.extract_signal_metrics, hr, hs]
    exact ⟨rfl, rfl, rfl, rfl⟩

/-- Claim C8 (witness): the no-valid-reading branch of the theorem at
an empty payload (and any first branch instance). -/
theorem c8_signal_aggregation_witness :
    (KafkaETL.extract_signal_metrics (fun _ => none)
      [("rxInfo[0].rssi", Value.vNum (-140)),
       ("rxInfo[1].rssi", Value.vNum (-90)),
       ("rxInfo[2].rssi", Value.vNum (-60)),
       ("rxInfo[3].rssi", Value.vNum (-200))]).gateway_count = 2 ∧
    (KafkaETL.extract_signal_metrics (fun _ => none) []).rssi_avg = none := by
  refine ⟨(c8_signal_aggregation.1 (fun _ => none)).2, ?_⟩
  exact (c8_signal_aggregation.2 (fun _ => none) [] rfl rfl).1

/-- Helper: a record whose every value is `None` or the empty string is
`completely empty` for `DataValidator.is_completely_empty`. -/
theorem is_completely_empty_of_all_empty (r : Record)
    (h : ∀ kv ∈ r, kv.2 = Value.vNone ∨ kv.2 = Value.vStr "") :
    Validation.is_completely_empty r = true := by
  unfold Validation.is_completely_empty
  cases hr : r.isEmpty with
  | true => simp
  | false =>
    simp only [hr, Bool.false_eq_true, if_false, decide_eq_true_eq]
    exact List.countP_eq_zero.mpr (fun kv hkv => by
      rcases h kv hkv with h1 | h1 <;> simp [Validation.isNonEmptyVal, h1])

/-- Claim C5: a record in which every field is null/empty is rejected
by `validate_sensor_record` with the `empty` reason: the `empty_records`
counter is incremented, `invalid_records` is untouched, and the
emptiness rule fires first (the reason is the empty-record one even
though `_id`/`time` are also missing). -/
theorem c5_all_empty_rejected_as_empty (strFloat : String → Option Rat)
    (s : Validation.VStats) (r : Record) (sensor_type : String)
    (h : ∀ kv ∈ r, kv.2 = Value.vNone ∨ kv.2 = Value.vStr "") :
    (Validation.validate_sensor_record strFloat s r sensor_type).2.1 = false ∧
    (Validation.validate_sensor_record strFloat s r sensor_type).2.2 =
      "Registro completamente vacío" ∧
    (Validation.validate_sensor_record strFloat s r sensor_type).1.empty_records =
      s.empty_records + 1 ∧
    (Validation.validate_sensor_record strFloat s r sensor_type).1.invalid_records =
      s.invalid_records ∧
    (Validation.validate_sensor_record strFloat s r sensor_type).1.total_processed =
      s.total_processed + 1 := by
  have hemp := is_completely_empty_of_all_empty r h
  unfold Validation.validate_sensor_record
  simp [hemp]

/-- Claim C5 (witness): the theorem at a one-field record holding only
a null `_id`. -/
theorem c5_all_empty_rejected_witness :
    (Validation.validate_sensor_record (fun _ => none) Validation.initStats
      [("_id", Value.vNone)] "air_quality").2.2 =
      "Registro completamente vacío" ∧
    (Validation.validate_sensor_record (fun _ => none) Validation.initStats
      [("_id", Value.vNone)] "air_quality").1.empty_records =
      Validation.initStats.empty_records + 1 := by
  have h := c5_all_empty_rejected_as_empty (fun _ => none) Validation.initStats
    [("_id", Value.vNone)] "air_quality" (by decide)
  exact ⟨h.2.1, h.2.2.1⟩

/-- Helper: every call to `validate_sensor_record` increments
`total_processed` and exactly one of `valid_records`, `empty_records`,
`invalid_records`. -/
theorem validate_step_counters (strFloat : String → Option Rat)
    (s : Validation.VStats) (r : Record) (ty : String) :
    (Validation.validate_sensor_record strFloat s r ty).1.total_processed =
      s.total_processed + 1 ∧
    (((Validation.validate_sensor_record strFloat s r ty).1.valid_records =
        s.valid_records + 1 ∧
      (Validation.validate_sensor_record strFloat s r ty).1.empty_records =
        s.empty_records ∧
      (Validation.validate_sensor_record strFloat s r ty).1.invalid_records =
        s.invalid_records) ∨
     ((Validation.validate_sensor_record strFloat s r ty).1.valid_records =
        s.valid_records ∧
      (Validation.validate_sensor_record strFloat s r ty).1.empty_records =
        s.empty_records + 1 ∧
      (Validation.validate_sensor_record strFloat s r ty).1.invalid_records =
        s.invalid_records) ∨
     ((Validation.validate_sensor_record strFloat s r ty).1.valid_records =
        s.valid_records ∧
      (Validation.validate_sensor_record strFloat s r ty).1.empty_records =
        s.empty_records ∧
      (Validation.validate_sensor_record strFloat s r ty).1.invalid_records =
        s.invalid_records + 1)) := by
  unfold Validation.validate_sensor_record
  dsimp only
  split
  · exact ⟨rfl, Or.inr (Or.inl ⟨rfl, rfl, rfl⟩)⟩
  · split
    · exact ⟨rfl, Or.inr (Or.inr ⟨rfl, rfl, rfl⟩)⟩
    · split
      · exact ⟨rfl, Or.inr (Or.inr ⟨rfl, rfl, rfl⟩)⟩
      · split
        · exact ⟨rfl, Or.inr (Or.inr ⟨rfl, rfl, rfl⟩)⟩
        · exact ⟨rfl, Or.inl ⟨rfl, rfl, rfl⟩⟩

/-- Claim C10: (a) each call to `validate_sensor_record` increments
`total_processed` and exactly one of the valid/empty/invalid counters;
(b) consequently, after any sequence of calls starting from the fresh
statistics dict, `total_processed = valid_records + empty_records +
invalid_records`; and (c) `get_validation_report` computes
`validity_rate = valid_records / total_processed` when
`total_processed > 0` and `0` otherwise. -/
theorem c10_metrics_invariant (strFloat : String → Option Rat)
    (calls : List (Record × String)) :
    (∀ (s : Validation.VStats) (r : Record) (ty : String),
      (Validation.validate_sensor_record strFloat s r ty).1.total_processed =
        s.total_processed + 1 ∧
      (Validation.validate_sensor_record strFloat s r ty).1.valid_records +
        (Validation.validate_sensor_record strFloat s r ty).1.empty_records +
        (Validation.validate_sensor_record strFloat s r ty).1.invalid_records =
        s.valid_records + s.empty_records + s.invalid_records + 1) ∧
    ((calls.foldl
        (fun s rc => (Validation.validate_sensor_record strFloat s rc.1 rc.2).1)
        Validation.initStats).total_processed =
      (calls.foldl
        (fun s rc => (Validation.validate_sensor_record strFloat s rc.1 rc.2).1)
        Validation.initStats).valid_records +
      (calls.foldl
        (fun s rc => (Validation.validate_sensor_record strFloat s rc.1 rc.2).1)
        Validation.initStats).empty_records +
      (calls.foldl
        (fun s rc => (Validation.validate_sensor_record strFloat s rc.1 rc.2).1)
        Validation.initStats).invalid_records) ∧
    (∀ s : Validation.VStats,
      (Validation.get_validation_report s).validity_rate =
        if s.total_processed > 0 then
          (s.valid_records : Rat) / (s.total_processed : Rat)
        else 0) := by
  have hstep : ∀ (s : Validation.VStats) (r : Record) (ty : String),
      (Validation.validate_sensor_record strFloat s r ty).1.total_processed =
        s.total_processed + 1 ∧
      (Validation.validate_sensor_record strFloat s r ty).1.valid_records +
        (Validation.validate_sensor_record strFloat s r ty).1.empty_records +
        (Validation.validate_sensor_record strFloat s r ty).1.invalid_records =
        s.valid_records + s.empty_records + s.invalid_records + 1 := by
    intro s r ty
    obtain ⟨ht, hsum⟩ := validate_step_counters strFloat s r ty
    refine ⟨ht, ?_⟩
    rcases hsum with ⟨h1, h2, h3⟩ | ⟨h1, h2, h3⟩ | ⟨h1, h2, h3⟩ <;> omega
  refine ⟨hstep, ?_, fun s => rfl⟩
  have key : ∀ (cs : List (Record × String)) (s : Validation.VStats),
      s.total_processed = s.valid_records + s.empty_records + s.invalid_records →
      (cs.foldl
        (fun s rc => (Validation.validate_sensor_record strFloat s rc.1 rc.2).1)
        s).total_processed =
      (cs.foldl
        (fun s rc => (Validation.validate_sensor_record strFloat s rc.1 rc.2).1)
        s).valid_records +
      (cs.foldl
        (fun s rc => (Validation.validate_sensor_record strFloat s rc.1 rc.2).1)
        s).empty_records +
      (cs.foldl
        (fun s rc => (Validation.validate_sensor_record strFloat s rc.1 rc.2).1)
        s).invalid_records := by
    intro cs
    induction cs with
    | nil => intro s hs; exact hs
    | cons c cs ih =>
      intro s hs
      simp only [List.foldl_cons]
      apply ih
      obtain ⟨ht, hsum⟩ := hstep s c.1 c.2
      omega
  exact key calls Validation.initStats rfl

/-- Claim C1 (counterexample): a durable-store outage (`dbFail = true`)
on an otherwise-valid record does NOT leave the message
unacknowledged/requeued — `save_to_postgres` swallows every exception
internally (returns `None`), so `process_message` falls through to
`basic_ack`. -/
theorem c1_counterexample_db_outage_acked :
    Consumer.process_message (fun _ => none) ⟨0⟩
      (fun _ _ => Except.ok [("device_name", Value.vStr "d1")]) true false
      (Except.ok { sensor_type := Value.vStr "agua" }) =
      Consumer.AckDecision.ack ∧
    Consumer.AckDecision.ack ≠ Consumer.AckDecision.nackRequeue := by
  exact ⟨rfl, by decide⟩

/-- Claim C1 (amended): a JSON-decode failure is nacked without requeue
(poison); any other exception escaping the processing steps is nacked
with requeue; and whenever processing runs to completion the message is
positively acknowledged — in particular regardless of the durable-store
outcome `dbFail`, because `save_to_postgres` catches its own exceptions
and merely returns `None` (the failure is logged and counted, the
message is still acked). -/
theorem c1_ack_semantics (fromiso : String → Option PyDatetime) (now : PyDatetime)
    (etl : Value → Record → Except Unit Record) (dbFail redisOk : Bool) :
    (Consumer.process_message fromiso now etl dbFail redisOk
        (Except.error Consumer.PyExc.jsonDecodeError) =
      Consumer.AckDecision.nackNoRequeue) ∧
    (Consumer.process_message fromiso now etl dbFail redisOk
        (Except.error Consumer.PyExc.otherExc) =
      Consumer.AckDecision.nackRequeue) ∧
    (∀ msg : Consumer.EnvMsg, msg.sensor_type = Value.vStr "aire" →
      etl msg.sensor_type msg.data = Except.error () →
      Consumer.process_message fromiso now etl dbFail redisOk (Except.ok msg) =
        Consumer.AckDecision.nackRequeue) ∧
    (∀ (msg : Consumer.EnvMsg) (processed : Record),
      (msg.sensor_type = Value.vStr "aire" ∨ msg.sensor_type = Value.vStr "sonido" ∨
        msg.sensor_type = Value.vStr "agua") →
      etl msg.sensor_type msg.data = Except.ok processed →
      pyTruthy (pyGet processed "device_name") = true →
      Consumer.process_message fromiso now etl dbFail redisOk (Except.ok msg) =
        Consumer.AckDecision.ack) := by
  refine ⟨rfl, rfl, ?_, ?_⟩
  · intro msg h1 h2
    simp only [Consumer.process_message]
    rw [if_neg (not_not_intro (Or.inl h1))]
    simp only [h2]
  · intro msg processed hst hok _hdev
    simp only [Consumer.process_message]
    rw [if_neg (not_not_intro hst)]
    simp only [hok]
    split
    · rfl
    · rfl

/-- Claim C1 (witness): the amended theorem at a concrete parser, ETL
step and message: decode failure is dropped without requeue, and a
complete run is acked. -/
theorem c1_ack_semantics_witness :
    Consumer.process_message (fun _ => none) ⟨0⟩
      (fun _ _ => Except.ok [("device_name", Value.vStr "d1")]) false true
      (Except.error Consumer.PyExc.jsonDecodeError) =
      Consumer.AckDecision.nackNoRequeue ∧
    Consumer.process_message (fun _ => none) ⟨0⟩
      (fun _ _ => Except.ok [("device_name", Value.vStr "d1")]) false true
      (Except.ok { sensor_type := Value.vStr "aire" }) =
      Consumer.AckDecision.ack := by
  have h := c1_ack_semantics (fun _ => none) ⟨0⟩
    (fun _ _ => Except.ok [("device_name", Value.vStr "d1")]) false true
  exact ⟨h.1, h.2.2.2 { sensor_type := Value.vStr "aire" }
    [("device_name", Value.vStr "d1")] (Or.inl rfl) rfl rfl⟩

/-- Claim C7: timestamp-handling asymmetry.  In the strict transform
path a missing or unparseable timestamp makes the whole transform
return `None` (conjuncts 1 and 4: a falsy `time` is unparseable to
`safe_timestamp`, and a `None` result from `safe_timestamp` propagates
to a `None` transform result); in the cache-persistence path the same
situations instead yield the receipt time `now` and processing
continues (conjuncts 2 and 3). -/
theorem c7_timestamp_asymmetry :
    (∀ (fromiso : String → Option PyDatetime)
       (strptime : String → String → Option PyDatetime)
       (data : Record) (R : Type) (rest : PyDatetime → Option R),
      KafkaETL.safe_timestamp fromiso strptime (pyGet data "time") = none →
      KafkaETL.transform_to_schema_head fromiso strptime data rest = none) ∧
    (∀ (fromiso : String → Option PyDatetime) (now : PyDatetime) (v : Value),
      pyTruthy v = false →
      Consumer.timestamp_fixup fromiso now v = Value.vDt now) ∧
    (∀ (fromiso : String → Option PyDatetime) (now : PyDatetime) (s : String),
      fromiso (s.replace "Z" "+00:00") = none →
      Consumer.timestamp_fixup fromiso now (Value.vStr s) = Value.vDt now) ∧
    (∀ (fromiso : String → Option PyDatetime)
       (strptime : String → String → Option PyDatetime) (v : Value),
      pyTruthy v = false → KafkaETL.safe_timestamp fromiso strptime v = none) := by
  refine ⟨?_, ?_, ?_, ?_⟩
  · intro fromiso strptime data R rest h
    unfold KafkaETL.transform_to_schema_head
    dsimp only
    split
    · rfl
    · rw [h]
  · intro fromiso now v h
    unfold Consumer.timestamp_fixup
    simp [h]
  · intro fromiso now s h
    unfold Consumer.timestamp_fixup
    by_cases hs : pyTruthy (Value.vStr s) = true
    · rw [if_pos hs]
      show (match fromiso (s.replace "Z" "+00:00") with
            | some d => Value.vDt d
            | none => Value.vDt now) = Value.vDt now
      rw [h]
    · rw [if_neg hs]
  · intro fromiso strptime v h
    unfold KafkaETL.safe_timestamp
    simp [h]

/-- Claim C7 (witness): the theorem at concrete parsers that fail on
every input, a record with an unparseable `time`, and a missing cache
timestamp. -/
theorem c7_timestamp_asymmetry_witness :
    KafkaETL.transform_to_schema_head (fun _ => none) (fun _ _ => none)
      [("_id", Value.vStr "x"), ("deviceInfo.deviceName", Value.vStr "d")]
      (fun _ : PyDatetime => some (7 : Nat)) = none ∧
    Consumer.timestamp_fixup (fun _ => none) ⟨3⟩ Value.vNone = Value.vDt ⟨3⟩ ∧
    Consumer.timestamp_fixup (fun _ => none) ⟨3⟩ (Value.vStr "garbage") =
      Value.vDt ⟨3⟩ ∧
    KafkaETL.safe_timestamp (fun _ => none) (fun _ _ => none) Value.vNone = none :=
  ⟨c7_timestamp_asymmetry.1 (fun _ => none) (fun _ _ => none)
      [("_id", Value.vStr "x"), ("deviceInfo.deviceName", Value.vStr "d")] Nat
      (fun _ => some 7) rfl,
   c7_timestamp_asymmetry.2.1 (fun _ => none) ⟨3⟩ Value.vNone rfl,
   c7_timestamp_asymmetry.2.2.1 (fun _ => none) ⟨3⟩ "garbage" rfl,
   c7_timestamp_asymmetry.2.2.2 (fun _ => none) (fun _ _ => none) Value.vNone rfl⟩

/-- Helper: numeric bounds for the Magnus `alpha` at T = 25 °C,
H = 50 %, from the Mathlib decimal bounds on `log 2`. -/
theorem magnus_alpha_bounds :
    0.9503 < 17.27 * ((25 : ℚ) : ℝ) / (237.7 + ((25 : ℚ) : ℝ)) +
      Real.log (((50 : ℚ) : ℝ) / 100) ∧
    17.27 * ((25 : ℚ) : ℝ) / (237.7 + ((25 : ℚ) : ℝ)) +
      Real.log (((50 : ℚ) : ℝ) / 100) < 0.9504 := by
  have hcast : ((25 : ℚ) : ℝ) = 25 := by norm_num
  have hc50 : ((50 : ℚ) : ℝ) = 50 := by norm_num
  have hlog : Real.log ((50 : ℝ) / 100) = - Real.log 2 := by
    rw [show (50 : ℝ) / 100 = 2⁻¹ by norm_num, Real.log_inv]
  have hL1 := Real.log_two_gt_d9
  have hL2 := Real.log_two_lt_d9
  rw [hcast, hc50, hlog]
  have hq1 : (1.6434471808 : ℝ) < 17.27 * 25 / (237.7 + 25) := by norm_num
  have hq2 : 17.27 * 25 / (237.7 + (25 : ℝ)) < 1.6435471803 := by norm_num
  constructor <;> linarith

/-- Helper: given the `alpha` bounds, the rounded Magnus dew point lies
within 0.1 °C of the 13.87 °C reference value. -/
theorem dew_point_value_bound (alpha : ℝ)
    (h1 : 0.9503 < alpha) (h2 : alpha < 0.9504) :
    |((round ((237.7 * alpha / (17.27 - alpha)) * 100) : ℤ) : ℝ) / 100 - 13.87|
      ≤ 0.1 := by
  have hden : (0 : ℝ) < 17.27 - alpha := by linarith
  have hd1 : (13.8 : ℝ) < 237.7 * alpha / (17.27 - alpha) := by
    rw [lt_div_iff₀ hden]
    nlinarith
  have hd2 : 237.7 * alpha / (17.27 - alpha) < 13.9 := by
    rw [div_lt_iff₀ hden]
    nlinarith
  have hr := abs_sub_round ((237.7 * alpha / (17.27 - alpha)) * 100)
  have hr' := abs_le.mp hr
  rw [abs_le]
  constructor <;> nlinarith [hr'.1, hr'.2]

/-- Claim C9: the dew-point derivation follows the Magnus
approximation: at temperature 25 °C and humidity 50 % the result (with
the source's 2-decimal rounding) is within ±0.1 °C of the 13.87 °C
reference, and any humidity ≤ 0 — in particular 0 — yields `None`. -/
theorem c9_dew_point_magnus :
    (∃ y : ℝ, Consumer._calculate_dew_point 25 50 = some y ∧
      |y - 13.87| ≤ 0.1) ∧
    (∀ t h : Rat, h ≤ 0 → Consumer._calculate_dew_point t h = none) := by
  constructor
  · refine ⟨((round ((237.7 * (17.27 * ((25 : ℚ) : ℝ) / (237.7 + ((25 : ℚ) : ℝ)) +
        Real.log (((50 : ℚ) : ℝ) / 100)) / (17.27 - (17.27 * ((25 : ℚ) : ℝ) /
        (237.7 + ((25 : ℚ) : ℝ)) + Real.log (((50 : ℚ) : ℝ) / 100)))) * 100) :
        ℤ) : ℝ) / 100, ?_, ?_⟩
    · unfold Consumer._calculate_dew_point
      rw [if_neg (by norm_num : ¬ ((50 : Rat) ≤ 0))]
    · exact dew_point_value_bound _ magnus_alpha_bounds.1 magnus_alpha_bounds.2
  · intro t h hh
    unfold Consumer._calculate_dew_point
    rw [if_pos hh]

/-- Claim C9 (witness): the humidity guard of the theorem at
humidity exactly 0. -/
theorem c9_dew_point_magnus_witness :
    Consumer._calculate_dew_point 20 0 = none :=
  c9_dew_point_magnus.2 20 0 (by norm_num)
